import Mathlib

/-!
Verification of the GPT disk-image library `mini-gpt` (file
`src/mini-gpt/src/lib.rs`) via a shallow embedding.

Conventions of the embedding:
* A byte buffer (Rust `&[u8]` / `Vec<u8>`) is a `List Nat`; a byte is a `Nat`
  that is `< 256` whenever it originates from actual `u8` data.
* Machine integers are `Nat` with explicit `% 2^32` / `% 2^64` at the points
  where the Rust code can overflow (release-profile wrapping semantics).
* `uN::from_le_bytes` over `raw[off..off+n]` is `leVal raw off n`; since `u8`
  values are `< 256`, the bitwise-or of shifted bytes used by the source is
  the same as the positional sum used here.
* `uN::to_le_bytes` is `leBytes n x`.
* Fallible operations land in `M α = Option (Except Error α)`: `none` models a
  Rust panic (out-of-bounds slice index, failed `try_into`, `chunks(0)`),
  `some (Except.error e)` models `Err(e)`, `some (Except.ok a)` models `Ok(a)`.
* An I/O handle positioned over an in-memory disk image is the image itself,
  a `List Nat`; `handle_read` models `seek` + `read_exact`.
-/

set_option maxRecDepth 1000000

namespace MiniGpt

/-- `u32` wrap-around modulus. -/
def U32_MOD : Nat := 4294967296

/-- `u64` wrap-around modulus. -/
def U64_MOD : Nat := 18446744073709551616

/-- Little-endian value of the `n` bytes `raw[off..off+n]`
(models `uN::from_le_bytes(raw[off..off+n])`; the caller guards bounds). -/
def leVal (raw : List Nat) (off : Nat) : Nat → Nat
  | 0 => 0
  | n + 1 => raw.getD off 0 + 256 * leVal raw (off + 1) n

/-- Little-endian byte decomposition (models `uN::to_le_bytes`). -/
def leBytes : Nat → Nat → List Nat
  | 0, _ => []
  | n + 1, x => x % 256 :: leBytes n (x / 256)

/-- `Error` from `src/mini-gpt/src/lib.rs` lines 5-20. The payload of
`Error::Io(io::Error)` is abstracted away. -/
inductive Error : Type
  | io : Error
  | invalidSignature : Nat → Error
  | incorrectRevision : Nat → Error
  | invalidHeaderSize : Nat → Error
  | unexpectedMyLba : Nat → Error
  | unexpectedAlternateLba : Nat → Error
  | headerDoesNotMatchBackup : Error
  | unexpectedNonZeroValue : Error
  | headerChecksumMismatch : Nat → Nat → Error
  | partitionEntryArrayChecksumMismatch : Nat → Nat → Error
  | noPartitions : Error
  | invalidMbrSignature : Nat → Error
  | backupPartitionArrayDoesNotMatch : Error
  deriving DecidableEq, Repr

/-- Result of a Rust computation that may panic (`none`) or fail (`Err`). -/
def M (α : Type) : Type := Option (Except Error α)

instance exceptDecEq {ε α : Type} [DecidableEq ε] [DecidableEq α] :
    DecidableEq (Except ε α) := fun a b =>
  match a, b with
  | .error e, .error f =>
      if h : e = f then .isTrue (by rw [h]) else .isFalse (by simp [h])
  | .ok x, .ok y =>
      if h : x = y then .isTrue (by rw [h]) else .isFalse (by simp [h])
  | .error _, .ok _ => .isFalse (by simp)
  | .ok _, .error _ => .isFalse (by simp)

instance (α : Type) [DecidableEq α] : DecidableEq (M α) :=
  inferInstanceAs (DecidableEq (Option (Except Error α)))

/-- `return Err(e)` -/
def throwE {α : Type} (e : Error) : M α := some (Except.error e)

/-- `Ok(a)` -/
def okM {α : Type} (a : α) : M α := some (Except.ok a)

/-- `LOGICAL_BLOCK_SIZE` (line 38). -/
def LOGICAL_BLOCK_SIZE : Nat := 512

/-- `REQUIRED_SIGNATURE` (line 39). -/
def REQUIRED_SIGNATURE : Nat := 0x5452415020494645

/-- `THIS_REVISION` (line 40). -/
def THIS_REVISION : Nat := 0x10000

/-- `MIN_HEADER_SIZE` (line 41). -/
def MIN_HEADER_SIZE : Nat := 92

/-- `CRC32_LUT` (lines 238-271). -/
def CRC32_LUT : List Nat := [
  0x00000000, 0x77073096, 0xEE0E612C, 0x990951BA, 0x076DC419, 0x706AF48F, 0xE963A535, 0x9E6495A3,
  0x0EDB8832, 0x79DCB8A4, 0xE0D5E91E, 0x97D2D988, 0x09B64C2B, 0x7EB17CBD, 0xE7B82D07, 0x90BF1D91,
  0x1DB71064, 0x6AB020F2, 0xF3B97148, 0x84BE41DE, 0x1ADAD47D, 0x6DDDE4EB, 0xF4D4B551, 0x83D385C7,
  0x136C9856, 0x646BA8C0, 0xFD62F97A, 0x8A65C9EC, 0x14015C4F, 0x63066CD9, 0xFA0F3D63, 0x8D080DF5,
  0x3B6E20C8, 0x4C69105E, 0xD56041E4, 0xA2677172, 0x3C03E4D1, 0x4B04D447, 0xD20D85FD, 0xA50AB56B,
  0x35B5A8FA, 0x42B2986C, 0xDBBBC9D6, 0xACBCF940, 0x32D86CE3, 0x45DF5C75, 0xDCD60DCF, 0xABD13D59,
  0x26D930AC, 0x51DE003A, 0xC8D75180, 0xBFD06116, 0x21B4F4B5, 0x56B3C423, 0xCFBA9599, 0xB8BDA50F,
  0x2802B89E, 0x5F058808, 0xC60CD9B2, 0xB10BE924, 0x2F6F7C87, 0x58684C11, 0xC1611DAB, 0xB6662D3D,
  0x76DC4190, 0x01DB7106, 0x98D220BC, 0xEFD5102A, 0x71B18589, 0x06B6B51F, 0x9FBFE4A5, 0xE8B8D433,
  0x7807C9A2, 0x0F00F934, 0x9609A88E, 0xE10E9818, 0x7F6A0DBB, 0x086D3D2D, 0x91646C97, 0xE6635C01,
  0x6B6B51F4, 0x1C6C6162, 0x856530D8, 0xF262004E, 0x6C0695ED, 0x1B01A57B, 0x8208F4C1, 0xF50FC457,
  0x65B0D9C6, 0x12B7E950, 0x8BBEB8EA, 0xFCB9887C, 0x62DD1DDF, 0x15DA2D49, 0x8CD37CF3, 0xFBD44C65,
  0x4DB26158, 0x3AB551CE, 0xA3BC0074, 0xD4BB30E2, 0x4ADFA541, 0x3DD895D7, 0xA4D1C46D, 0xD3D6F4FB,
  0x4369E96A, 0x346ED9FC, 0xAD678846, 0xDA60B8D0, 0x44042D73, 0x33031DE5, 0xAA0A4C5F, 0xDD0D7CC9,
  0x5005713C, 0x270241AA, 0xBE0B1010, 0xC90C2086, 0x5768B525, 0x206F85B3, 0xB966D409, 0xCE61E49F,
  0x5EDEF90E, 0x29D9C998, 0xB0D09822, 0xC7D7A8B4, 0x59B33D17, 0x2EB40D81, 0xB7BD5C3B, 0xC0BA6CAD,
  0xEDB88320, 0x9ABFB3B6, 0x03B6E20C, 0x74B1D29A, 0xEAD54739, 0x9DD277AF, 0x04DB2615, 0x73DC1683,
  0xE3630B12, 0x94643B84, 0x0D6D6A3E, 0x7A6A5AA8, 0xE40ECF0B, 0x9309FF9D, 0x0A00AE27, 0x7D079EB1,
  0xF00F9344, 0x8708A3D2, 0x1E01F268, 0x6906C2FE, 0xF762575D, 0x806567CB, 0x196C3671, 0x6E6B06E7,
  0xFED41B76, 0x89D32BE0, 0x10DA7A5A, 0x67DD4ACC, 0xF9B9DF6F, 0x8EBEEFF9, 0x17B7BE43, 0x60B08ED5,
  0xD6D6A3E8, 0xA1D1937E, 0x38D8C2C4, 0x4FDFF252, 0xD1BB67F1, 0xA6BC5767, 0x3FB506DD, 0x48B2364B,
  0xD80D2BDA, 0xAF0A1B4C, 0x36034AF6, 0x41047A60, 0xDF60EFC3, 0xA867DF55, 0x316E8EEF, 0x4669BE79,
  0xCB61B38C, 0xBC66831A, 0x256FD2A0, 0x5268E236, 0xCC0C7795, 0xBB0B4703, 0x220216B9, 0x5505262F,
  0xC5BA3BBE, 0xB2BD0B28, 0x2BB45A92, 0x5CB36A04, 0xC2D7FFA7, 0xB5D0CF31, 0x2CD99E8B, 0x5BDEAE1D,
  0x9B64C2B0, 0xEC63F226, 0x756AA39C, 0x026D930A, 0x9C0906A9, 0xEB0E363F, 0x72076785, 0x05005713,
  0x95BF4A82, 0xE2B87A14, 0x7BB12BAE, 0x0CB61B38, 0x92D28E9B, 0xE5D5BE0D, 0x7CDCEFB7, 0x0BDBDF21,
  0x86D3D2D4, 0xF1D4E242, 0x68DDB3F8, 0x1FDA836E, 0x81BE16CD, 0xF6B9265B, 0x6FB077E1, 0x18B74777,
  0x88085AE6, 0xFF0F6A70, 0x66063BCA, 0x11010B5C, 0x8F659EFF, 0xF862AE69, 0x616BFFD3, 0x166CCF45,
  0xA00AE278, 0xD70DD2EE, 0x4E048354, 0x3903B3C2, 0xA7672661, 0xD06016F7, 0x4969474D, 0x3E6E77DB,
  0xAED16A4A, 0xD9D65ADC, 0x40DF0B66, 0x37D83BF0, 0xA9BCAE53, 0xDEBB9EC5, 0x47B2CF7F, 0x30B5FFE9,
  0xBDBDF21C, 0xCABAC28A, 0x53B39330, 0x24B4A3A6, 0xBAD03605, 0xCDD70693, 0x54DE5729, 0x23D967BF,
  0xB3667A2E, 0xC4614AB8, 0x5D681B02, 0x2A6F2B94, 0xB40BBE37, 0xC30C8EA1, 0x5A05DF1B, 0x2D02EF8D]

/-- `crc32` (lines 273-280): reflected CRC-32, initial register `0xFFFFFFFF`,
one table lookup per byte, final xor with `0xFFFFFFFF`. -/
def crc32 (data : List Nat) : Nat :=
  Nat.xor
    (data.foldl
      (fun crc byte =>
        Nat.xor (crc >>> 8) (CRC32_LUT.getD (Nat.land (Nat.xor crc byte) 0xFF) 0))
      0xFFFFFFFF)
    0xFFFFFFFF

/-- `GptHeader` (lines 22-36). `disk_guid` holds the raw `u128` GUID value;
the source converts it with `guid_to_uuid` (lines 230-236), which is injective
in the `u128`, so GUID equality coincides with equality of these `Nat`s. -/
structure GptHeader : Type where
  revision : Nat
  header_size : Nat
  header_crc32 : Nat
  my_lba : Nat
  alternate_lba : Nat
  first_usable_lba : Nat
  last_usable_lba : Nat
  disk_guid : Nat
  partition_entry_lba : Nat
  number_of_partition_entries : Nat
  size_of_partition_entry : Nat
  partition_entry_array_crc32 : Nat
  deriving DecidableEq, Repr

/-- `GptHeader::crc32_from_logical_block` (lines 117-126): copy the 512-byte
block, zero bytes `[16,20)` (the stored-checksum field), and CRC the first
`header_size` bytes of the copy. `copy_from_slice` panics (`none`) unless the
input slice is exactly 512 bytes long. -/
def GptHeader.crc32_from_logical_block (logical_block : List Nat)
    (header_size : Nat) : Option Nat :=
  if logical_block.length = LOGICAL_BLOCK_SIZE then
    some (crc32
      ((logical_block.take 16 ++ [0, 0, 0, 0] ++ logical_block.drop 20).take header_size))
  else
    none

/-- `GptHeader::parse` (lines 62-115). Each Rust slice index `raw[a..b]`
panics (`none`) when `raw.length < b`; the checks appear in source order.
The final loop over `raw[92..]` returns `UnexpectedNonZeroValue` at the first
nonzero byte, which is observationally the all-zero test used here. -/
def GptHeader.parse (raw : List Nat) : M GptHeader :=
  if raw.length < 8 then none else
  let signature := leVal raw 0 8
  if signature ≠ REQUIRED_SIGNATURE then throwE (.invalidSignature signature) else
  if raw.length < 12 then none else
  let revision := leVal raw 8 4
  if revision ≠ THIS_REVISION then throwE (.incorrectRevision revision) else
  if raw.length < 16 then none else
  let header_size := leVal raw 12 4
  if header_size < MIN_HEADER_SIZE ∨ LOGICAL_BLOCK_SIZE < header_size then
    throwE (.invalidHeaderSize header_size) else
  if raw.length < 20 then none else
  let header_crc32 := leVal raw 16 4
  match GptHeader.crc32_from_logical_block raw header_size with
  | none => none
  | some computed_crc32 =>
  if computed_crc32 ≠ header_crc32 then
    throwE (.headerChecksumMismatch computed_crc32 header_crc32) else
  if leVal raw 20 4 ≠ 0 then throwE .unexpectedNonZeroValue else
  if (raw.drop 92).all (fun b => b == 0) then
    okM {
      revision := revision
      header_size := header_size
      header_crc32 := header_crc32
      my_lba := leVal raw 24 8
      alternate_lba := leVal raw 32 8
      first_usable_lba := leVal raw 40 8
      last_usable_lba := leVal raw 48 8
      disk_guid := leVal raw 56 16
      partition_entry_lba := leVal raw 72 8
      number_of_partition_entries := leVal raw 80 4
      size_of_partition_entry := leVal raw 84 4
      partition_entry_array_crc32 := leVal raw 88 4 }
  else
    throwE .unexpectedNonZeroValue

/-- `GptHeader::partition_entry_array_byte_range` (lines 128-135), as the pair
(start, end) of the half-open byte range. `size_of_partition_entry *
number_of_partition_entries` is a `u32` product; the start and end are `u64`. -/
def GptHeader.partition_entry_array_byte_range (h : GptHeader) : Nat × Nat :=
  let start := h.partition_entry_lba * LOGICAL_BLOCK_SIZE % U64_MOD
  let size := h.size_of_partition_entry * h.number_of_partition_entries % U32_MOD
  (start, (start + size) % U64_MOD)

/-- `GptHeader::compare_header_and_backup_header` (lines 137-146). -/
def GptHeader.compare_header_and_backup_header (header backup : GptHeader) :
    Except Error Unit :=
  if header.my_lba = backup.alternate_lba
      ∨ header.alternate_lba = backup.my_lba
      ∨ header.disk_guid = backup.disk_guid then
    Except.ok ()
  else
    Except.error .headerDoesNotMatchBackup

/-- `PartitionEntry` (lines 149-157). GUIDs hold the raw `u128` values (see
`GptHeader.disk_guid`); `partition_name` holds the Unicode scalar values
produced by `String::from_utf16_lossy`. -/
structure PartitionEntry : Type where
  partition_type_guid : Nat
  unique_partition_guid : Nat
  starting_lba : Nat
  ending_lba : Nat
  attributes : Nat
  partition_name : List Nat
  deriving DecidableEq, Repr

/-- The `u16` code units of `partition_name_bytes.chunks(2).map(u16::from_le_bytes)`
(line 209-210). The name slice is always the 72 bytes `bytes[56..128]`, so the
odd-leftover case never arises there. -/
def u16unitsLE : List Nat → List Nat
  | b0 :: b1 :: rest => (b0 + 256 * b1) :: u16unitsLE rest
  | _ => []

/-- `String::from_utf16_lossy`: surrogate pairs combine, unpaired surrogates
become U+FFFD, everything else passes through. -/
def utf16Lossy : List Nat → List Nat
  | [] => []
  | [c] => if c < 0xD800 ∨ 0xE000 ≤ c then [c] else [0xFFFD]
  | c :: c2 :: rest =>
    if c < 0xD800 ∨ 0xE000 ≤ c then c :: utf16Lossy (c2 :: rest)
    else if c < 0xDC00 then
      if 0xDC00 ≤ c2 ∧ c2 < 0xE000 then
        (0x10000 + (c - 0xD800) * 0x400 + (c2 - 0xDC00)) :: utf16Lossy rest
      else 0xFFFD :: utf16Lossy (c2 :: rest)
    else 0xFFFD :: utf16Lossy (c2 :: rest)

/-- `PartitionEntry::parse` (lines 199-222). The slice indices run up to
offset 128, so any input shorter than 128 bytes panics (`none`). -/
def PartitionEntry.parse (bytes : List Nat) : Option PartitionEntry :=
  if bytes.length < 128 then none else
  some {
    partition_type_guid := leVal bytes 0 16
    unique_partition_guid := leVal bytes 16 16
    starting_lba := leVal bytes 32 8
    ending_lba := leVal bytes 40 8
    attributes := leVal bytes 48 8
    partition_name :=
      utf16Lossy
        ((u16unitsLE ((bytes.drop 56).take 72)).takeWhile (fun c => c ≠ 0)) }

/-- Helper for `slice::chunks`: the fuel argument bounds the recursion and is
instantiated with the list length, which suffices for a nonzero chunk size. -/
def chunksAux (s : Nat) : Nat → List Nat → List (List Nat)
  | 0, _ => []
  | _, [] => []
  | fuel + 1, b :: rest => ((b :: rest).take s) :: chunksAux s fuel ((b :: rest).drop s)

/-- `slice::chunks(s)` collected to a list (for `s ≠ 0`; the `s = 0` panic is
handled at the call site in `PartitionEntry.parse_array`). -/
def chunks (s : Nat) (l : List Nat) : List (List Nat) :=
  chunksAux s l.length l

/-- `Iterator::map(parse).collect()`: `some` of all results, or `none` if any
element panics. -/
def mapOpt {α β : Type} (f : α → Option β) : List α → Option (List β)
  | [] => some []
  | a :: rest =>
    match f a, mapOpt f rest with
    | some b, some bs => some (b :: bs)
    | _, _ => none

/-- `PartitionEntry::parse_array` (lines 183-197) with the lazy iterator
collected (as `gpt_info` does at the call sites, lines 500 and 510-511).
`slice::chunks` panics when `size_of_partition_entry` is zero. -/
def PartitionEntry.parse_array (raw : List Nat) (header : GptHeader) :
    M (List PartitionEntry) :=
  let computed_crc32 := crc32 raw
  if computed_crc32 ≠ header.partition_entry_array_crc32 then
    throwE (.partitionEntryArrayChecksumMismatch computed_crc32
      header.partition_entry_array_crc32)
  else if header.size_of_partition_entry = 0 then none
  else
    match mapOpt PartitionEntry.parse (chunks header.size_of_partition_entry raw) with
    | none => none
    | some entries => okM entries

/-- `PartitionEntry::partition_byte_range` (lines 224-228), `u64` arithmetic. -/
def PartitionEntry.partition_byte_range (e : PartitionEntry) : Nat × Nat :=
  (e.starting_lba * LOGICAL_BLOCK_SIZE % U64_MOD,
    ((e.ending_lba + 1) * LOGICAL_BLOCK_SIZE) % U64_MOD)

/-- Constants of `mod mbr` (lines 292-303). -/
def BOOT_CODE_SIZE : Nat := 440

/-- `mbr::PARTITION_RECORD_COUNT`. -/
def PARTITION_RECORD_COUNT : Nat := 4

/-- `mbr::REQUIRED_SIGNATURE`. -/
def MBR_REQUIRED_SIGNATURE : Nat := 0xAA55

/-- `mbr::OS_TYPE_GPT_PROTECTIVE`. -/
def OS_TYPE_GPT_PROTECTIVE : Nat := 0xEE

/-- `mbr::PARTITION_RECORD_MAX_ENDING_CHS`. -/
def PARTITION_RECORD_MAX_ENDING_CHS : Nat := 0xFFFFFF

/-- `mbr::PARTITION_RECORD_MAX_SIZE_IN_LBA`. -/
def PARTITION_RECORD_MAX_SIZE_IN_LBA : Nat := 0xFFFFFFFF

/-- `MbrPartitionRecord` (lines 313-321): `boot_indicator` and `os_type` are
`u8`; the rest are `u32` (`starting_chs`/`ending_chs` are stored on disk as
3 bytes). -/
structure MbrPartitionRecord : Type where
  boot_indicator : Nat
  starting_chs : Nat
  os_type : Nat
  ending_chs : Nat
  starting_lba : Nat
  size_in_lba : Nat
  deriving DecidableEq, Repr

/-- `MbrPartitionRecord::default()` (the derived `Default`: all fields zero). -/
def MbrPartitionRecord.default : MbrPartitionRecord :=
  { boot_indicator := 0, starting_chs := 0, os_type := 0,
    ending_chs := 0, starting_lba := 0, size_in_lba := 0 }

/-- `Mbr` (lines 305-311). `boot_code` is `[u8; 440]` and `partition_record`
is `[MbrPartitionRecord; 4]`; the fixed lengths are carried by `Mbr.wf`. -/
structure Mbr : Type where
  boot_code : List Nat
  unique_mbr_disk_signature : Nat
  partition_record : List MbrPartitionRecord
  signature : Nat
  deriving DecidableEq, Repr

/-- The invariants the Rust types `[u8; 440]`, `u32`, `[_; 4]`, `u16`, `u8`
give every `Mbr` value for free. -/
def Mbr.wf (m : Mbr) : Prop :=
  m.boot_code.length = BOOT_CODE_SIZE ∧
  (∀ b ∈ m.boot_code, b < 256) ∧
  m.unique_mbr_disk_signature < U32_MOD ∧
  m.partition_record.length = PARTITION_RECORD_COUNT ∧
  (∀ r ∈ m.partition_record,
    r.boot_indicator < 256 ∧ r.starting_chs < U32_MOD ∧ r.os_type < 256 ∧
    r.ending_chs < U32_MOD ∧ r.starting_lba < U32_MOD ∧ r.size_in_lba < U32_MOD) ∧
  m.signature < 65536

/-- One partition record as laid out by `Mbr::encode` (lines 357-371):
byte 0 `boot_indicator`, bytes 1-3 the low three bytes of `starting_chs`,
byte 4 `os_type`, bytes 5-7 the low three bytes of `ending_chs`, bytes 8-11
`starting_lba`, bytes 12-15 `size_in_lba`. -/
def encodeRecord (r : MbrPartitionRecord) : List Nat :=
  r.boot_indicator :: (leBytes 4 r.starting_chs).take 3
    ++ r.os_type :: (leBytes 4 r.ending_chs).take 3
    ++ leBytes 4 r.starting_lba ++ leBytes 4 r.size_in_lba

/-- `Mbr::encode` (lines 352-375). The source fills a zeroed 512-byte array:
boot code at `[0,440)`, disk signature at `[440,444)`, bytes 444-445 left
zero, the four 16-byte partition records at `[446,510)`, the signature at
`[510,512)`; the concatenation below reproduces that layout byte for byte. -/
def Mbr.encode (m : Mbr) : List Nat :=
  m.boot_code ++ leBytes 4 m.unique_mbr_disk_signature ++ [0, 0]
    ++ (m.partition_record.map encodeRecord).flatten ++ leBytes 2 m.signature

/-- One partition record as read by `Mbr::parse` (lines 393-410) from its
16-byte slice; the or-of-shifted-bytes of the source is the positional sum
here (`u8` values are < 256). -/
def parseRecord (b : List Nat) : MbrPartitionRecord :=
  { boot_indicator := b.getD 0 0
    starting_chs := b.getD 1 0 + 256 * b.getD 2 0 + 65536 * b.getD 3 0
    os_type := b.getD 4 0
    ending_chs := b.getD 5 0 + 256 * b.getD 6 0 + 65536 * b.getD 7 0
    starting_lba := leVal b 8 4
    size_in_lba := leVal b 12 4 }

/-- `Mbr::parse` (lines 376-426). Slice indices up to 512 panic (`none`) on a
shorter input; the signature check is the only fallible validation. -/
def Mbr.parse (raw : List Nat) : M Mbr :=
  if raw.length < 440 then none else
  let boot_code := raw.take 440
  if raw.length < 444 then none else
  let unique_mbr_disk_signature := leVal raw 440 4
  if raw.length < 510 then none else
  let partition_record :=
    (List.range PARTITION_RECORD_COUNT).map
      (fun i => parseRecord ((raw.drop (446 + 16 * i)).take 16))
  if raw.length < 512 then none else
  let signature := raw.getD 510 0 + 256 * raw.getD 511 0
  if signature = MBR_REQUIRED_SIGNATURE then
    okM { boot_code := boot_code
          unique_mbr_disk_signature := unique_mbr_disk_signature
          partition_record := partition_record
          signature := signature }
  else
    throwE (.invalidMbrSignature signature)

/-- `handle_read` (lines 429-439) over an in-memory disk image: seek to
`offset` and `read_exact` `size` bytes. `read_exact` succeeds on an empty
buffer and otherwise fails with an I/O error (`Error::Io`) when the image
holds fewer than `size` bytes past `offset`. -/
def handle_read (disk : List Nat) (offset size : Nat) : Except Error (List Nat) :=
  if size = 0 then Except.ok []
  else if offset + size ≤ disk.length then Except.ok ((disk.drop offset).take size)
  else Except.error .io

/-- `GptInfo` (lines 441-447). -/
structure GptInfo : Type where
  mbr : Mbr
  header : GptHeader
  backup_header : GptHeader
  partition_entry_array : List PartitionEntry
  deriving DecidableEq, Repr

/-- `GptInfo::first_partition_byte_range` (lines 450-457). -/
def GptInfo.first_partition_byte_range (g : GptInfo) : Except Error (Nat × Nat) :=
  match g.partition_entry_array with
  | [] => Except.error .noPartitions
  | first_partition_entry :: _ =>
    Except.ok first_partition_entry.partition_byte_range

/-- `gpt_info` (lines 459-521) up to and including the parse of the primary
partition entry array (line 500), i.e. the state just before the backup
partition-entry-array byte range is computed at line 502. Returns the parsed
MBR, primary header, backup header and primary entry array. -/
def gptReachBackupRead (disk : List Nat) :
    M (Mbr × GptHeader × GptHeader × List PartitionEntry) :=
  match handle_read disk (0 * LOGICAL_BLOCK_SIZE) LOGICAL_BLOCK_SIZE with
  | .error e => throwE e
  | .ok buf0 =>
  match Mbr.parse buf0 with
  | none => none
  | some (.error e) => throwE e
  | some (.ok mbr) =>
  match handle_read disk (1 * LOGICAL_BLOCK_SIZE) LOGICAL_BLOCK_SIZE with
  | .error e => throwE e
  | .ok buf1 =>
  match GptHeader.parse buf1 with
  | none => none
  | some (.error e) => throwE e
  | some (.ok header) =>
  if header.my_lba ≠ 1 then throwE (.unexpectedMyLba header.my_lba) else
  match handle_read disk (header.alternate_lba * LOGICAL_BLOCK_SIZE % U64_MOD)
      LOGICAL_BLOCK_SIZE with
  | .error e => throwE e
  | .ok buf2 =>
  match GptHeader.parse buf2 with
  | none => none
  | some (.error e) => throwE e
  | some (.ok backup_header) =>
  match GptHeader.compare_header_and_backup_header header backup_header with
  | .error e => throwE e
  | .ok _ =>
  let r := header.partition_entry_array_byte_range
  match handle_read disk r.1 ((r.2 + U64_MOD - r.1) % U64_MOD) with
  | .error e => throwE e
  | .ok buf3 =>
  match PartitionEntry.parse_array buf3 header with
  | none => none
  | some (.error e) => throwE e
  | some (.ok partition_entry_array) =>
    okM (mbr, header, backup_header, partition_entry_array)

/-- The byte range `gpt_info` reads the backup partition entry array from
(line 502: `backup_header.partition_entry_array_byte_range()`), in a run that
reached that point. -/
def gptBackupReadRange (disk : List Nat) : M (Nat × Nat) :=
  match gptReachBackupRead disk with
  | none => none
  | some (.error e) => throwE e
  | some (.ok (_, _, backup_header, _)) =>
    okM backup_header.partition_entry_array_byte_range

/-- `gpt_info` (lines 459-521), continuing `gptReachBackupRead` with lines
501-521: read the backup partition entry array over the backup header's byte
range, parse it against the *primary* header, compare with the primary array
and assemble the `GptInfo`. -/
def gpt_info (disk : List Nat) : M GptInfo :=
  match gptReachBackupRead disk with
  | none => none
  | some (.error e) => throwE e
  | some (.ok (mbr, header, backup_header, partition_entry_array)) =>
  let r := backup_header.partition_entry_array_byte_range
  match handle_read disk r.1 ((r.2 + U64_MOD - r.1) % U64_MOD) with
  | .error e => throwE e
  | .ok buf =>
  match PartitionEntry.parse_array buf header with
  | none => none
  | some (.error e) => throwE e
  | some (.ok backup_partition_entry_array) =>
  if backup_partition_entry_array ≠ partition_entry_array then
    throwE .backupPartitionArrayDoesNotMatch
  else
    okM { mbr := mbr
          header := header
          backup_header := backup_header
          partition_entry_array := partition_entry_array }

/-- `size_in_bytes_to_num_logical_blocks` (lines 530-532); `Nat` subtraction
is `u64::saturating_sub`. -/
def size_in_bytes_to_num_logical_blocks (size : Nat) : Nat :=
  (size - 1) / LOGICAL_BLOCK_SIZE + 1

/-- `create::NUMBER_OF_PARTITION_ENTRIES` (line 535). -/
def NUMBER_OF_PARTITION_ENTRIES : Nat := 4

/-- `create::SIZE_OF_PARTITION_ENTRY` (line 536). -/
def SIZE_OF_PARTITION_ENTRY : Nat := 128

/-- `create::PARTITION_ARRAY_NUM_LBA` (lines 537-539). -/
def PARTITION_ARRAY_NUM_LBA : Nat :=
  size_in_bytes_to_num_logical_blocks
    (NUMBER_OF_PARTITION_ENTRIES * SIZE_OF_PARTITION_ENTRY)

/-- `disk_size_in_lba` (lines 542-557). The sum never reaches `2^64` for any
`u64` argument, so plain `Nat` addition is exact. -/
def disk_size_in_lba (partition_size_bytes : Nat) : Nat :=
  1 + 1 + PARTITION_ARRAY_NUM_LBA
    + size_in_bytes_to_num_logical_blocks partition_size_bytes
    + PARTITION_ARRAY_NUM_LBA + 1

/-- `MbrPartitionRecord::new_protective_with_disk_size_in_lba` (lines
324-335). `disk_size_in_lba * 512` is a `u64` product and the `- 1` after it
a `u64` subtraction; both wrap (release profile), hence the `% U64_MOD`. -/
def MbrPartitionRecord.new_protective_with_disk_size_in_lba
    (disk_size_in_lba : Nat) : MbrPartitionRecord :=
  { boot_indicator := 0
    starting_chs := 512
    starting_lba := 1
    os_type := OS_TYPE_GPT_PROTECTIVE
    size_in_lba :=
      min ((disk_size_in_lba + U64_MOD - 1) % U64_MOD) PARTITION_RECORD_MAX_SIZE_IN_LBA
    ending_chs :=
      min ((disk_size_in_lba * LOGICAL_BLOCK_SIZE % U64_MOD + U64_MOD - 1) % U64_MOD)
        PARTITION_RECORD_MAX_ENDING_CHS }

/-- `Mbr::new_protective_with_disk_size_in_lba` (lines 339-351). -/
def Mbr.new_protective_with_disk_size_in_lba (disk_size_in_lba : Nat) : Mbr :=
  { boot_code := List.replicate BOOT_CODE_SIZE 0
    unique_mbr_disk_signature := 0
    partition_record :=
      [MbrPartitionRecord.new_protective_with_disk_size_in_lba disk_size_in_lba,
        MbrPartitionRecord.default, MbrPartitionRecord.default,
        MbrPartitionRecord.default]
    signature := MBR_REQUIRED_SIGNATURE }

/-- `write_header` (lines 559-568): the full byte stream written to the
handle, a single `write_all` of the encoded protective MBR. -/
def write_header (partition_size_bytes : Nat) : List Nat :=
  (Mbr.new_protective_with_disk_size_in_lba
    (disk_size_in_lba partition_size_bytes)).encode

/-! ## Concrete fixtures

Hand-built disk images used to witness and refute parts of the claims. A GPT
header block is built from its body (with the stored-checksum field zeroed)
by splicing in the CRC of the body's first `header_size` bytes, which makes
`GptHeader::parse`'s checksum test pass by construction. -/

/-- Body of a GPT header logical block with `header_size = 92`, the stored
checksum zeroed, and the given field values; bytes 92-511 are zero. -/
def mkHeaderBlockBody (my alt firstu lastu guid entlba num esz acrc : Nat) :
    List Nat :=
  leBytes 8 REQUIRED_SIGNATURE ++ leBytes 4 THIS_REVISION ++ leBytes 4 92
    ++ leBytes 4 0 ++ leBytes 4 0
    ++ leBytes 8 my ++ leBytes 8 alt ++ leBytes 8 firstu ++ leBytes 8 lastu
    ++ leBytes 16 guid ++ leBytes 8 entlba ++ leBytes 4 num ++ leBytes 4 esz
    ++ leBytes 4 acrc ++ List.replicate 420 0

/-- A valid GPT header block: the body with its own CRC-32 (over the first 92
bytes) spliced into bytes `[16,20)`. -/
def mkHeaderBlock (my alt firstu lastu guid entlba num esz acrc : Nat) :
    List Nat :=
  let body := mkHeaderBlockBody my alt firstu lastu guid entlba num esz acrc
  body.take 16 ++ leBytes 4 (crc32 (body.take 92)) ++ body.drop 20

/-- A minimal valid MBR logical block: all zero except the trailing
signature `0xAA55`. -/
def mbrBlock : List Nat := List.replicate 510 0 ++ [0x55, 0xAA]

/-- A 5-block disk image: MBR; primary header (`my_lba = 1`,
`alternate_lba = 3`, entry array at LBA 2 with 0 entries of size 128,
array CRC 0 = `crc32 []`); a zero block; backup header (`my_lba = 3`,
`alternate_lba = 1`, entry array at LBA 4 with 2 entries of size 64); a zero
block holding the 128 backup-array bytes. -/
def diskA : List Nat :=
  mbrBlock
    ++ (mkHeaderBlock 1 3 0 0 7 2 0 128 0
      ++ (List.replicate 512 0
        ++ (mkHeaderBlock 3 1 0 0 7 4 2 64 0
          ++ List.replicate 512 0)))

/-- The `GptHeader` that `GptHeader::parse` decodes from
`mkHeaderBlock 1 3 0 0 7 2 0 128 0` (primary header of `diskA`). -/
def diskA_primary : GptHeader :=
  { revision := THIS_REVISION, header_size := 92,
    header_crc32 := crc32 ((mkHeaderBlockBody 1 3 0 0 7 2 0 128 0).take 92),
    my_lba := 1, alternate_lba := 3, first_usable_lba := 0, last_usable_lba := 0,
    disk_guid := 7, partition_entry_lba := 2, number_of_partition_entries := 0,
    size_of_partition_entry := 128, partition_entry_array_crc32 := 0 }

/-- The `GptHeader` decoded from `mkHeaderBlock 3 1 0 0 7 4 2 64 0` (backup
header of `diskA`): entry array at LBA 4, 2 entries of size 64. -/
def diskA_backup : GptHeader :=
  { revision := THIS_REVISION, header_size := 92,
    header_crc32 := crc32 ((mkHeaderBlockBody 3 1 0 0 7 4 2 64 0).take 92),
    my_lba := 3, alternate_lba := 1, first_usable_lba := 0, last_usable_lba := 0,
    disk_guid := 7, partition_entry_lba := 4, number_of_partition_entries := 2,
    size_of_partition_entry := 64, partition_entry_array_crc32 := 0 }

/-- The `Mbr` decoded from `mbrBlock`. -/
def diskA_mbr : Mbr :=
  { boot_code := List.replicate 440 0, unique_mbr_disk_signature := 0,
    partition_record := [MbrPartitionRecord.default, MbrPartitionRecord.default,
      MbrPartitionRecord.default, MbrPartitionRecord.default],
    signature := MBR_REQUIRED_SIGNATURE }

/-- Body of the C1 counterexample block: `header_size = 96`, stored checksum
zeroed, reserved bytes `[20,24)` zero, byte 92 equal to 1, all other bytes
from 24 on zero. -/
def c1Body : List Nat :=
  leBytes 8 REQUIRED_SIGNATURE ++ leBytes 4 THIS_REVISION ++ leBytes 4 96
    ++ leBytes 4 0 ++ leBytes 4 0 ++ List.replicate 68 0 ++ [1]
    ++ List.replicate 419 0

/-- The C1 counterexample block: `c1Body` with its own CRC-32 over the first
96 bytes spliced into bytes `[16,20)`. -/
def c1Block : List Nat :=
  c1Body.take 16 ++ leBytes 4 (crc32 (c1Body.take 96)) ++ c1Body.drop 20

/-! ## Byte-level lemmas -/

theorem leBytes_length (n x : Nat) : (leBytes n x).length = n := by
  induction n generalizing x with
  | zero => rfl
  | succ n ih => simp [leBytes, ih]

theorem leVal_cons_succ (a : Nat) (l : List Nat) (off n : Nat) :
    leVal (a :: l) (off + 1) n = leVal l off n := by
  induction n generalizing off with
  | zero => rfl
  | succ n ih =>
    simp only [leVal, List.getD_cons_succ]
    rw [ih]

theorem leVal_append_right (L t : List Nat) (off n : Nat) (h : L.length ≤ off) :
    leVal (L ++ t) off n = leVal t (off - L.length) n := by
  induction n generalizing off with
  | zero => rfl
  | succ n ih =>
    simp only [leVal]
    rw [List.getD_append_right _ _ _ _ h, ih (off + 1) (by omega)]
    have harith : off + 1 - L.length = off - L.length + 1 := by omega
    rw [harith]

theorem mod_mul_decompose (x k : Nat) :
    x % (256 * k) = x % 256 + 256 * (x / 256 % k) := by
  have h1 : x % (256 * k) % 256 = x % 256 := Nat.mod_mod_of_dvd x ⟨k, rfl⟩
  have h2 : x % (256 * k) / 256 = x / 256 % k := Nat.mod_mul_right_div_self x 256 k
  omega

theorem leVal_leBytes_left (k x : Nat) (rest : List Nat) :
    leVal (leBytes k x ++ rest) 0 k = x % 256 ^ k := by
  induction k generalizing x rest with
  | zero => simp [leVal, Nat.mod_one]
  | succ k ih =>
    simp only [leBytes, List.cons_append, leVal, List.getD_cons_zero]
    rw [leVal_cons_succ, ih]
    rw [Nat.pow_succ, Nat.mul_comm (256 ^ k) 256, mod_mul_decompose x (256 ^ k)]

theorem leBytes_mod (k x : Nat) : leBytes k (x % 256 ^ k) = leBytes k x := by
  induction k generalizing x with
  | zero => rfl
  | succ k ih =>
    simp only [leBytes, List.cons.injEq]
    refine ⟨?_, ?_⟩
    · rw [Nat.pow_succ, Nat.mul_comm (256 ^ k) 256]
      exact Nat.mod_mod_of_dvd x ⟨256 ^ k, rfl⟩
    · rw [Nat.pow_succ, Nat.mul_comm (256 ^ k) 256,
        Nat.mod_mul_right_div_self, ih]

/-! ## Claims -/

/-- C3 (amended): for every `n > 0`,
`size_in_bytes_to_num_logical_blocks n = (n - 1) / 512 + 1` (so 1 at `n = 1`,
1 at `n = 512`, 2 at `n = 513`); at `n = 0` the saturating subtraction gives
`(0 / 512) + 1 = 1` block, not 0. -/
theorem size_in_bytes_to_num_logical_blocks_spec :
    (∀ n : Nat, 0 < n →
      size_in_bytes_to_num_logical_blocks n = (n - 1) / 512 + 1) ∧
    size_in_bytes_to_num_logical_blocks 0 = 1 ∧
    size_in_bytes_to_num_logical_blocks 1 = 1 ∧
    size_in_bytes_to_num_logical_blocks 512 = 1 ∧
    size_in_bytes_to_num_logical_blocks 513 = 2 :=
  ⟨fun _ _ => rfl, by decide, by decide, by decide, by decide⟩

/-- Witness for C3: the formula instantiated at `n = 3`. -/
theorem size_in_bytes_to_num_logical_blocks_spec_witness :
    size_in_bytes_to_num_logical_blocks 3 = (3 - 1) / 512 + 1 :=
  size_in_bytes_to_num_logical_blocks_spec.1 3 (by decide)

/-- Counterexample to C3 as stated: at `n = 0` the function returns 1, not
the 0 blocks the claim asserts. -/
theorem size_in_bytes_to_num_logical_blocks_zero_counterexample :
    size_in_bytes_to_num_logical_blocks 0 = 1 ∧
    size_in_bytes_to_num_logical_blocks 0 ≠ 0 := by decide

/-- C4: `compare_header_and_backup_header` succeeds iff
`primary.my_lba = backup.alternate_lba` or `primary.alternate_lba =
backup.my_lba` or `primary.disk_guid = backup.disk_guid`, failing with
`HeaderDoesNotMatchBackup` otherwise; and for a backup built from a primary
by swapping `my_lba` with `alternate_lba` and copying `disk_guid`, the
comparison succeeds with the arguments in either order. -/
theorem compare_header_and_backup_header_spec :
    (∀ h b : GptHeader,
      (GptHeader.compare_header_and_backup_header h b = Except.ok () ↔
        h.my_lba = b.alternate_lba ∨ h.alternate_lba = b.my_lba ∨
          h.disk_guid = b.disk_guid) ∧
      (¬(h.my_lba = b.alternate_lba ∨ h.alternate_lba = b.my_lba ∨
          h.disk_guid = b.disk_guid) →
        GptHeader.compare_header_and_backup_header h b =
          Except.error .headerDoesNotMatchBackup)) ∧
    (∀ h b : GptHeader,
      b.my_lba = h.alternate_lba → b.alternate_lba = h.my_lba →
      b.disk_guid = h.disk_guid →
      GptHeader.compare_header_and_backup_header h b = Except.ok () ∧
      GptHeader.compare_header_and_backup_header b h = Except.ok ()) := by
  constructor
  · intro h b
    by_cases c : h.my_lba = b.alternate_lba ∨ h.alternate_lba = b.my_lba ∨
      h.disk_guid = b.disk_guid
    · simp [GptHeader.compare_header_and_backup_header, c]
    · simp [GptHeader.compare_header_and_backup_header, c]
  · intro h b h1 h2 h3
    constructor
    · simp [GptHeader.compare_header_and_backup_header, h2.symm]
    · simp [GptHeader.compare_header_and_backup_header, h1]

/-- Witness for C4: a primary with `my_lba = 1`, `alternate_lba = 7`,
`disk_guid = 5` against the backup built by swapping the LBAs and copying
the GUID; both orders succeed. -/
theorem compare_header_and_backup_header_spec_witness :
    GptHeader.compare_header_and_backup_header
        ⟨0x10000, 92, 0, 1, 7, 0, 0, 5, 2, 4, 128, 0⟩
        ⟨0x10000, 92, 0, 7, 1, 0, 0, 5, 2, 4, 128, 0⟩ = Except.ok () ∧
    GptHeader.compare_header_and_backup_header
        ⟨0x10000, 92, 0, 7, 1, 0, 0, 5, 2, 4, 128, 0⟩
        ⟨0x10000, 92, 0, 1, 7, 0, 0, 5, 2, 4, 128, 0⟩ = Except.ok () :=
  compare_header_and_backup_header_spec.2
    ⟨0x10000, 92, 0, 1, 7, 0, 0, 5, 2, 4, 128, 0⟩
    ⟨0x10000, 92, 0, 7, 1, 0, 0, 5, 2, 4, 128, 0⟩ rfl rfl rfl

/-- C7: `crc32` is the reflected table-driven CRC-32: initial register
`0xFFFFFFFF`, per-byte step `crc := (crc >>> 8) ^^^ TABLE[(crc ^^^ byte) &&&
0xFF]`, final xor `0xFFFFFFFF`; the table is the `0xEDB88320` table (entry
`0x80` is the polynomial itself) and `crc32 "hello" = 0x3610A686`. -/
theorem crc32_algorithm_spec :
    (∀ data : List Nat,
      crc32 data =
        Nat.xor
          (data.foldl
            (fun crc byte =>
              Nat.xor (crc >>> 8)
                (CRC32_LUT.getD (Nat.land (Nat.xor crc byte) 0xFF) 0))
            0xFFFFFFFF)
          0xFFFFFFFF) ∧
    CRC32_LUT.getD 0x80 0 = 0xEDB88320 ∧
    crc32 [0x68, 0x65, 0x6C, 0x6C, 0x6F] = 0x3610A686 :=
  ⟨fun _ => rfl, by decide, by decide⟩

/-- C9 (amended): on a `GptInfo` with a nonempty entry array,
`first_partition_byte_range` returns the first entry's byte range computed in
`u64` arithmetic, `[starting_lba * 512 mod 2^64, (ending_lba + 1) * 512 mod
2^64)`; on an empty array it returns the `NoPartitions` error. -/
theorem first_partition_byte_range_spec (g : GptInfo) :
    (g.partition_entry_array = [] →
      g.first_partition_byte_range = Except.error .noPartitions) ∧
    (∀ e rest, g.partition_entry_array = e :: rest →
      g.first_partition_byte_range =
        Except.ok (e.starting_lba * 512 % U64_MOD,
          (e.ending_lba + 1) * 512 % U64_MOD)) := by
  constructor
  · intro h
    simp [GptInfo.first_partition_byte_range, h]
  · intro e rest h
    simp [GptInfo.first_partition_byte_range, h,
      PartitionEntry.partition_byte_range, LOGICAL_BLOCK_SIZE]

/-- Witness for C9: the empty-array case returns `NoPartitions` and a
one-entry array returns the entry's range. -/
theorem first_partition_byte_range_spec_witness :
    GptInfo.first_partition_byte_range
        ⟨⟨[], 0, [], 0⟩, ⟨0, 0, 0, 0, 0, 0, 0, 0, 0, 0, 0, 0⟩,
          ⟨0, 0, 0, 0, 0, 0, 0, 0, 0, 0, 0, 0⟩, []⟩ =
      Except.error .noPartitions ∧
    GptInfo.first_partition_byte_range
        ⟨⟨[], 0, [], 0⟩, ⟨0, 0, 0, 0, 0, 0, 0, 0, 0, 0, 0, 0⟩,
          ⟨0, 0, 0, 0, 0, 0, 0, 0, 0, 0, 0, 0⟩, [⟨0, 0, 3, 9, 0, []⟩]⟩ =
      Except.ok (3 * 512 % U64_MOD, (9 + 1) * 512 % U64_MOD) :=
  ⟨(first_partition_byte_range_spec
      ⟨⟨[], 0, [], 0⟩, ⟨0, 0, 0, 0, 0, 0, 0, 0, 0, 0, 0, 0⟩,
        ⟨0, 0, 0, 0, 0, 0, 0, 0, 0, 0, 0, 0⟩, []⟩).1 rfl,
    (first_partition_byte_range_spec
      ⟨⟨[], 0, [], 0⟩, ⟨0, 0, 0, 0, 0, 0, 0, 0, 0, 0, 0, 0⟩,
        ⟨0, 0, 0, 0, 0, 0, 0, 0, 0, 0, 0, 0⟩, [⟨0, 0, 3, 9, 0, []⟩]⟩).2
      ⟨0, 0, 3, 9, 0, []⟩ [] rfl⟩

/-- Counterexample to C9 as stated: with `ending_lba = 2^64 - 1` the `u64`
product `(ending_lba + 1) * 512` wraps to 0, so the returned range is
`[0, 0)` and not the mathematical `[0, (ending_lba + 1) * 512)`. -/
theorem first_partition_byte_range_wrap_counterexample :
    GptInfo.first_partition_byte_range
        ⟨⟨[], 0, [], 0⟩, ⟨0, 0, 0, 0, 0, 0, 0, 0, 0, 0, 0, 0⟩,
          ⟨0, 0, 0, 0, 0, 0, 0, 0, 0, 0, 0, 0⟩,
          [⟨0, 0, 0, 18446744073709551615, 0, []⟩]⟩ = Except.ok (0, 0) ∧
    (Except.ok (0, 0) : Except Error (Nat × Nat)) ≠
      Except.ok (0, (18446744073709551615 + 1) * 512) := by
  decide

theorem chunksAux_length_mem (s : Nat) (hs : s ≠ 0) :
    ∀ fuel l c, l.length ≤ fuel → s ∣ l.length →
      c ∈ chunksAux s fuel l → c.length = s := by
  intro fuel
  induction fuel with
  | zero =>
    intro l c _ _ hc
    simp [chunksAux] at hc
  | succ fuel ih =>
    intro l c hfuel hdvd hc
    match l with
    | [] => simp [chunksAux] at hc
    | b :: rest =>
      simp only [chunksAux, List.mem_cons] at hc
      rcases hc with hc | hc
      · subst hc
        have hsle : s ≤ rest.length + 1 := by
          have := Nat.le_of_dvd (by simp) hdvd
          simpa using this
        simp [Nat.min_eq_left hsle]
      · refine ih _ c ?_ ?_ hc
        · simp only [List.length_drop]
          simp only [List.length_cons] at hfuel ⊢
          omega
        · simp only [List.length_drop]
          exact Nat.dvd_sub' hdvd dvd_rfl

theorem mapOpt_parse_some (cs : List (List Nat))
    (h : ∀ c ∈ cs, 128 ≤ c.length) :
    ∃ es, mapOpt PartitionEntry.parse cs = some es := by
  induction cs with
  | nil => exact ⟨[], rfl⟩
  | cons c rest ih =>
    obtain ⟨es, hes⟩ := ih (fun d hd => h d (List.mem_cons_of_mem _ hd))
    have hc : ¬c.length < 128 := Nat.not_lt.mpr (h c (List.mem_cons_self _ _))
    cases hp : PartitionEntry.parse c with
    | none => simp [PartitionEntry.parse, hc] at hp
    | some e => exact ⟨e :: es, by simp [mapOpt, hp, hes]⟩

/-- C10: `PartitionEntry::parse_array` never panics when
`size_of_partition_entry ≥ 128` and the buffer length is a nonzero multiple
of it (every chunk then has length `size_of_partition_entry ≥ 128`, so the
per-entry reads at offsets 0-128 stay in bounds); a chunk shorter than 128
bytes makes the per-entry decode index out of bounds; and checksum-valid
inputs violating the precondition (entry size 64, and entry size 0) panic
instead of returning an `Error`. -/
theorem parse_array_bounds_spec :
    (∀ raw : List Nat, ∀ header : GptHeader,
      128 ≤ header.size_of_partition_entry →
      header.size_of_partition_entry ∣ raw.length →
      raw.length ≠ 0 →
      PartitionEntry.parse_array raw header ≠ none) ∧
    (∀ bytes : List Nat, bytes.length < 128 →
      PartitionEntry.parse bytes = none) ∧
    PartitionEntry.parse_array (List.replicate 64 0)
      ⟨0, 0, 0, 0, 0, 0, 0, 0, 0, 1, 64, crc32 (List.replicate 64 0)⟩ = none ∧
    PartitionEntry.parse_array (List.replicate 128 0)
      ⟨0, 0, 0, 0, 0, 0, 0, 0, 0, 1, 0, crc32 (List.replicate 128 0)⟩ = none := by
  refine ⟨?_, ?_, by decide, by decide⟩
  · intro raw header h128 hdvd hne
    unfold PartitionEntry.parse_array
    by_cases hcrc : crc32 raw = header.partition_entry_array_crc32
    · have hs0 : header.size_of_partition_entry ≠ 0 := by omega
      have hall : ∀ c ∈ chunks header.size_of_partition_entry raw,
          c.length = header.size_of_partition_entry :=
        fun c hc => chunksAux_length_mem _ hs0 _ _ c le_rfl hdvd hc
      obtain ⟨es, hes⟩ := mapOpt_parse_some _
        (fun c hc => by rw [hall c hc]; exact h128)
      simp [hcrc, hs0, hes, okM]
    · simp [hcrc, throwE]
  · intro bytes hlen
    simp [PartitionEntry.parse, hlen]

/-- Witness for C10: the no-panic conclusion at a 128-byte buffer with the
default entry size 128, and the two panic fixtures. -/
theorem parse_array_bounds_spec_witness :
    PartitionEntry.parse_array (List.replicate 128 0)
      ⟨0, 0, 0, 0, 0, 0, 0, 0, 0, 1, 128, crc32 (List.replicate 128 0)⟩ ≠ none :=
  parse_array_bounds_spec.1 (List.replicate 128 0)
    ⟨0, 0, 0, 0, 0, 0, 0, 0, 0, 1, 128, crc32 (List.replicate 128 0)⟩
    (by decide) (by decide) (by decide)

theorem encodeRecord_length (r : MbrPartitionRecord) :
    (encodeRecord r).length = 16 := by
  simp [encodeRecord, leBytes_length]

theorem new_protective_encode_length (d : Nat) :
    (Mbr.new_protective_with_disk_size_in_lba d).encode.length = 512 := by
  simp [Mbr.encode, Mbr.new_protective_with_disk_size_in_lba, encodeRecord_length,
    leBytes_length, BOOT_CODE_SIZE]

/-- C8 (amended): for every `partition_size_bytes ≤ 2^64 - 2560` (so that the
`u64` product `disk_size_in_lba * 512` cannot wrap past `2^64`),
`write_header` writes exactly the one 512-byte encoded protective MBR for
`disk_size_in_lba(partition_size_bytes)` and nothing else, whose first
partition record has `boot_indicator = 0`, `starting_chs = 512`,
`starting_lba = 1`, `os_type = 0xEE`,
`size_in_lba = min (disk_size_in_lba - 1) 0xFFFFFFFF` and
`ending_chs = min (disk_size_in_lba * 512 - 1) 0xFFFFFF`, with the remaining
three records all-zero and trailing signature `0xAA55`. -/
theorem write_header_spec (p : Nat) (hp : p ≤ 18446744073709549056) :
    write_header p =
      (Mbr.new_protective_with_disk_size_in_lba (disk_size_in_lba p)).encode ∧
    (write_header p).length = 512 ∧
    (Mbr.new_protective_with_disk_size_in_lba (disk_size_in_lba p)).partition_record =
      [MbrPartitionRecord.new_protective_with_disk_size_in_lba (disk_size_in_lba p),
        MbrPartitionRecord.default, MbrPartitionRecord.default,
        MbrPartitionRecord.default] ∧
    MbrPartitionRecord.default = ⟨0, 0, 0, 0, 0, 0⟩ ∧
    (Mbr.new_protective_with_disk_size_in_lba (disk_size_in_lba p)).signature = 0xAA55 ∧
    (MbrPartitionRecord.new_protective_with_disk_size_in_lba
      (disk_size_in_lba p)).boot_indicator = 0 ∧
    (MbrPartitionRecord.new_protective_with_disk_size_in_lba
      (disk_size_in_lba p)).starting_chs = 512 ∧
    (MbrPartitionRecord.new_protective_with_disk_size_in_lba
      (disk_size_in_lba p)).starting_lba = 1 ∧
    (MbrPartitionRecord.new_protective_with_disk_size_in_lba
      (disk_size_in_lba p)).os_type = 0xEE ∧
    (MbrPartitionRecord.new_protective_with_disk_size_in_lba
      (disk_size_in_lba p)).size_in_lba = min (disk_size_in_lba p - 1) 0xFFFFFFFF ∧
    (MbrPartitionRecord.new_protective_with_disk_size_in_lba
      (disk_size_in_lba p)).ending_chs = min (disk_size_in_lba p * 512 - 1) 0xFFFFFF := by
  have hn : size_in_bytes_to_num_logical_blocks p ≤ 36028797018963963 := by
    unfold size_in_bytes_to_num_logical_blocks LOGICAL_BLOCK_SIZE
    omega
  have hd : 5 ≤ disk_size_in_lba p ∧ disk_size_in_lba p ≤ 36028797018963968 := by
    unfold disk_size_in_lba PARTITION_ARRAY_NUM_LBA size_in_bytes_to_num_logical_blocks
      NUMBER_OF_PARTITION_ENTRIES SIZE_OF_PARTITION_ENTRY LOGICAL_BLOCK_SIZE
    unfold size_in_bytes_to_num_logical_blocks LOGICAL_BLOCK_SIZE at hn
    omega
  refine ⟨rfl, new_protective_encode_length _, rfl, rfl, rfl, rfl, rfl, rfl, rfl, ?_, ?_⟩
  · simp only [MbrPartitionRecord.new_protective_with_disk_size_in_lba, U64_MOD,
      PARTITION_RECORD_MAX_SIZE_IN_LBA]
    omega
  · simp only [MbrPartitionRecord.new_protective_with_disk_size_in_lba, U64_MOD,
      PARTITION_RECORD_MAX_ENDING_CHS, LOGICAL_BLOCK_SIZE]
    omega

/-- Witness for C8: the amended theorem at `partition_size_bytes = 1000`. -/
theorem write_header_spec_witness : (write_header 1000).length = 512 :=
  (write_header_spec 1000 (by decide)).2.1

/-- Counterexample to C8 as stated: at `partition_size_bytes = 2^64 - 1` the
`u64` product `disk_size_in_lba * 512` wraps, giving `ending_chs = 2559`
instead of the claimed `min (disk_size_in_lba * 512 - 1) 0xFFFFFF =
0xFFFFFF`. -/
theorem write_header_overflow_counterexample :
    (MbrPartitionRecord.new_protective_with_disk_size_in_lba
      (disk_size_in_lba 18446744073709551615)).ending_chs = 2559 ∧
    min (disk_size_in_lba 18446744073709551615 * 512 - 1) 0xFFFFFF = 0xFFFFFF ∧
    (2559 : Nat) ≠ 0xFFFFFF := by
  decide

theorem mbrBlock_length : mbrBlock.length = 512 := by
  simp [mbrBlock]

theorem mkHeaderBlockBody_length (my alt firstu lastu guid entlba num esz acrc : Nat) :
    (mkHeaderBlockBody my alt firstu lastu guid entlba num esz acrc).length = 512 := by
  simp [mkHeaderBlockBody, leBytes_length]

theorem mkHeaderBlock_length (my alt firstu lastu guid entlba num esz acrc : Nat) :
    (mkHeaderBlock my alt firstu lastu guid entlba num esz acrc).length = 512 := by
  simp [mkHeaderBlock, leBytes_length, mkHeaderBlockBody_length]

theorem diskA_length : diskA.length = 2560 := by
  simp [diskA, mbrBlock_length, mkHeaderBlock_length]

theorem mbrBlock_parse : Mbr.parse mbrBlock = okM diskA_mbr := by decide

theorem diskA_primary_parse :
    GptHeader.parse (mkHeaderBlock 1 3 0 0 7 2 0 128 0) = okM diskA_primary := by
  decide

theorem diskA_backup_parse :
    GptHeader.parse (mkHeaderBlock 3 1 0 0 7 4 2 64 0) = okM diskA_backup := by
  decide

theorem diskA_compare :
    GptHeader.compare_header_and_backup_header diskA_primary diskA_backup =
      Except.ok () := by decide

theorem diskA_primary_range :
    diskA_primary.partition_entry_array_byte_range = (1024, 1024) := by decide

theorem diskA_backup_range :
    diskA_backup.partition_entry_array_byte_range = (2048, 2176) := by decide

theorem diskA_parse_array_primary :
    PartitionEntry.parse_array [] diskA_primary = okM [] := by decide

theorem diskA_read0 : handle_read diskA 0 512 = Except.ok mbrBlock := by
  unfold handle_read
  rw [if_neg (by norm_num), if_pos (by rw [diskA_length]; norm_num)]
  unfold diskA
  rw [List.drop_zero, List.take_left' mbrBlock_length]

theorem diskA_read1 :
    handle_read diskA 512 512 = Except.ok (mkHeaderBlock 1 3 0 0 7 2 0 128 0) := by
  unfold handle_read
  rw [if_neg (by norm_num), if_pos (by rw [diskA_length]; norm_num)]
  unfold diskA
  rw [List.drop_left' mbrBlock_length,
    List.take_left' (mkHeaderBlock_length 1 3 0 0 7 2 0 128 0)]

theorem drop_block (b t : List Nat) (n : Nat) (hb : b.length = 512) :
    (b ++ t).drop (512 + n) = t.drop n := by
  rw [← hb]
  exact List.drop_append n

theorem diskA_read3 :
    handle_read diskA 1536 512 = Except.ok (mkHeaderBlock 3 1 0 0 7 4 2 64 0) := by
  unfold handle_read
  rw [if_neg (by norm_num), if_pos (by rw [diskA_length]; norm_num)]
  unfold diskA
  rw [show (1536 : Nat) = 512 + 1024 from rfl, drop_block _ _ _ mbrBlock_length,
    show (1024 : Nat) = 512 + 512 from rfl,
    drop_block _ _ _ (mkHeaderBlock_length 1 3 0 0 7 2 0 128 0),
    show (512 : Nat) = 512 + 0 from rfl,
    drop_block _ _ _ (by simp), List.drop_zero,
    List.take_left' (mkHeaderBlock_length 3 1 0 0 7 4 2 64 0)]

theorem diskA_read_primary_array : handle_read diskA 1024 0 = Except.ok [] := by
  simp [handle_read]

theorem diskA_read_backup_array :
    handle_read diskA 2048 128 = Except.ok (List.replicate 128 0) := by
  unfold handle_read
  rw [if_neg (by norm_num), if_pos (by rw [diskA_length]; norm_num)]
  unfold diskA
  rw [show (2048 : Nat) = 512 + 1536 from rfl, drop_block _ _ _ mbrBlock_length,
    show (1536 : Nat) = 512 + 1024 from rfl,
    drop_block _ _ _ (mkHeaderBlock_length 1 3 0 0 7 2 0 128 0),
    show (1024 : Nat) = 512 + 512 from rfl,
    drop_block _ _ _ (by simp),
    show (512 : Nat) = 512 + 0 from rfl,
    drop_block _ _ _ (mkHeaderBlock_length 3 1 0 0 7 4 2 64 0), List.drop_zero,
    List.take_replicate]
  norm_num

theorem diskA_primary_my_lba : diskA_primary.my_lba = 1 := rfl

theorem diskA_primary_alt_lba : diskA_primary.alternate_lba = 3 := rfl

theorem gptReachBackupRead_steps
    (disk b0 b1 b2 b3 : List Nat) (mbr : Mbr) (h bh : GptHeader)
    (arr : List PartitionEntry)
    (hread0 : handle_read disk 0 512 = Except.ok b0)
    (hmbr : Mbr.parse b0 = okM mbr)
    (hread1 : handle_read disk 512 512 = Except.ok b1)
    (hph : GptHeader.parse b1 = okM h)
    (hmy : h.my_lba = 1)
    (hread2 : handle_read disk (h.alternate_lba * 512 % U64_MOD) 512 =
      Except.ok b2)
    (hpb : GptHeader.parse b2 = okM bh)
    (hcmp : GptHeader.compare_header_and_backup_header h bh = Except.ok ())
    (hread3 : handle_read disk h.partition_entry_array_byte_range.1
      ((h.partition_entry_array_byte_range.2 + U64_MOD -
        h.partition_entry_array_byte_range.1) % U64_MOD) = Except.ok b3)
    (hpa : PartitionEntry.parse_array b3 h = okM arr) :
    gptReachBackupRead disk = okM (mbr, h, bh, arr) := by
  unfold gptReachBackupRead
  simp only [LOGICAL_BLOCK_SIZE, Nat.reduceMul, Nat.zero_mul]
  rw [hread0]
  simp only [hmbr, okM]
  rw [hread1]
  simp only [hph, hmy, ne_eq, not_true_eq_false, if_false, ite_false]
  simp only [hread2, hpb, hcmp, hread3, hpa, okM]
  simp [hmy]

theorem diskA_reach :
    gptReachBackupRead diskA =
      okM (diskA_mbr, diskA_primary, diskA_backup, ([] : List PartitionEntry)) :=
  gptReachBackupRead_steps diskA mbrBlock (mkHeaderBlock 1 3 0 0 7 2 0 128 0)
    (mkHeaderBlock 3 1 0 0 7 4 2 64 0) [] diskA_mbr diskA_primary diskA_backup []
    diskA_read0 mbrBlock_parse diskA_read1 diskA_primary_parse rfl
    diskA_read3 diskA_backup_parse diskA_compare
    diskA_read_primary_array diskA_parse_array_primary

/-- C2 (amended): in every run of `gpt_info` that reaches the backup
partition-entry-array read, the byte range read is the backup header's own
`partition_entry_array_byte_range`: start `backup.partition_entry_lba * 512`
and length `backup.size_of_partition_entry *
backup.number_of_partition_entries` (u32 product), both in `u64` arithmetic
— the primary header's entry shape plays no part in it. -/
theorem gpt_backup_read_range_from_backup_header
    (disk : List Nat) (mbr : Mbr) (h bh : GptHeader)
    (arr : List PartitionEntry)
    (hreach : gptReachBackupRead disk = some (Except.ok (mbr, h, bh, arr))) :
    gptBackupReadRange disk = some (Except.ok
      (bh.partition_entry_lba * 512 % U64_MOD,
        (bh.partition_entry_lba * 512 % U64_MOD +
          bh.size_of_partition_entry * bh.number_of_partition_entries % U32_MOD)
          % U64_MOD)) := by
  unfold gptBackupReadRange
  rw [hreach]
  rfl

/-- Witness for C2: the amended range equation instantiated on the concrete
disk `diskA`. -/
theorem gpt_backup_read_range_from_backup_header_witness :
    gptBackupReadRange diskA = some (Except.ok
      (diskA_backup.partition_entry_lba * 512 % U64_MOD,
        (diskA_backup.partition_entry_lba * 512 % U64_MOD +
          diskA_backup.size_of_partition_entry *
            diskA_backup.number_of_partition_entries % U32_MOD) % U64_MOD)) :=
  gpt_backup_read_range_from_backup_header diskA diskA_mbr diskA_primary
    diskA_backup [] diskA_reach

/-- Counterexample to C2 as stated: on `diskA` the primary header has 0
entries of size 128 while the backup header has 2 entries of size 64, and
the backup read range is `[2048, 2176)` — its length comes from the backup
header's shape (128 bytes), not from the primary's
(`0 * 128 = 0` bytes, which would end the range at 2048). -/
theorem gpt_backup_read_range_counterexample :
    gptReachBackupRead diskA =
      okM (diskA_mbr, diskA_primary, diskA_backup, ([] : List PartitionEntry)) ∧
    gptBackupReadRange diskA = okM (2048, 2176) ∧
    diskA_backup.partition_entry_lba * 512 % U64_MOD = 2048 ∧
    diskA_primary.size_of_partition_entry *
      diskA_primary.number_of_partition_entries % U32_MOD = 0 ∧
    (2176 : Nat) ≠ (2048 + 0) % U64_MOD := by
  refine ⟨diskA_reach, ?_, by decide, by decide, by decide⟩
  unfold gptBackupReadRange
  rw [diskA_reach]
  rfl

/-- C5: whenever a run of `gpt_info` reaches the backup-array read and the
bytes read have a CRC-32 different from the *primary* header's
`partition_entry_array_crc32`, the call fails with
`PartitionEntryArrayChecksumMismatch` carrying that computed CRC and the
primary header's stored field — whatever the backup header's own
`partition_entry_array_crc32` is. -/
theorem gpt_info_backup_checksum_primary_field
    (disk : List Nat) (mbr : Mbr) (h bh : GptHeader)
    (arr : List PartitionEntry) (buf : List Nat)
    (hreach : gptReachBackupRead disk = some (Except.ok (mbr, h, bh, arr)))
    (hread : handle_read disk bh.partition_entry_array_byte_range.1
      ((bh.partition_entry_array_byte_range.2 + U64_MOD -
        bh.partition_entry_array_byte_range.1) % U64_MOD) = Except.ok buf)
    (hcrc : crc32 buf ≠ h.partition_entry_array_crc32) :
    gpt_info disk = some (Except.error
      (.partitionEntryArrayChecksumMismatch (crc32 buf)
        h.partition_entry_array_crc32)) := by
  unfold gpt_info
  rw [hreach]
  simp only [hread]
  unfold PartitionEntry.parse_array
  simp [hcrc, throwE]

/-- Witness for C5: on `diskA` the backup-array bytes are 128 zero bytes
whose CRC differs from the primary header's stored 0, so `gpt_info` fails
with the mismatch carrying the primary header's field. -/
theorem gpt_info_backup_checksum_primary_field_witness :
    gpt_info diskA = some (Except.error
      (.partitionEntryArrayChecksumMismatch (crc32 (List.replicate 128 0))
        diskA_primary.partition_entry_array_crc32)) :=
  gpt_info_backup_checksum_primary_field diskA diskA_mbr diskA_primary
    diskA_backup [] (List.replicate 128 0) diskA_reach
    diskA_read_backup_array (by decide)

/-- C1 (amended): for every 512-byte block on which the signature, revision,
header-size, checksum and reserved-bytes-[20,24) checks all pass,
`GptHeader::parse` fails with `UnexpectedNonZeroValue` iff some byte from
offset 92 (= `MIN_HEADER_SIZE`, not `header_size`) to the end of the block is
nonzero; otherwise it returns the decoded header. -/
theorem gpt_header_parse_zero_check_from_92
    (raw : List Nat)
    (hlen : raw.length = 512)
    (hsig : leVal raw 0 8 = REQUIRED_SIGNATURE)
    (hrev : leVal raw 8 4 = THIS_REVISION)
    (hsz1 : MIN_HEADER_SIZE ≤ leVal raw 12 4)
    (hsz2 : leVal raw 12 4 ≤ LOGICAL_BLOCK_SIZE)
    (hcrc : GptHeader.crc32_from_logical_block raw (leVal raw 12 4) =
      some (leVal raw 16 4))
    (hres : leVal raw 20 4 = 0) :
    (GptHeader.parse raw = throwE .unexpectedNonZeroValue ↔
      ∃ b ∈ raw.drop 92, b ≠ 0) ∧
    ((∀ b ∈ raw.drop 92, b = 0) →
      GptHeader.parse raw = okM
        { revision := leVal raw 8 4, header_size := leVal raw 12 4,
          header_crc32 := leVal raw 16 4, my_lba := leVal raw 24 8,
          alternate_lba := leVal raw 32 8, first_usable_lba := leVal raw 40 8,
          last_usable_lba := leVal raw 48 8, disk_guid := leVal raw 56 16,
          partition_entry_lba := leVal raw 72 8,
          number_of_partition_entries := leVal raw 80 4,
          size_of_partition_entry := leVal raw 84 4,
          partition_entry_array_crc32 := leVal raw 88 4 }) := by
  have hszg : ¬(leVal raw 12 4 < MIN_HEADER_SIZE ∨
      LOGICAL_BLOCK_SIZE < leVal raw 12 4) := by
    push_neg
    exact ⟨hsz1, hsz2⟩
  have hparse : GptHeader.parse raw =
      if (raw.drop 92).all (fun b => b == 0) then
        okM
          { revision := leVal raw 8 4, header_size := leVal raw 12 4,
            header_crc32 := leVal raw 16 4, my_lba := leVal raw 24 8,
            alternate_lba := leVal raw 32 8, first_usable_lba := leVal raw 40 8,
            last_usable_lba := leVal raw 48 8, disk_guid := leVal raw 56 16,
            partition_entry_lba := leVal raw 72 8,
            number_of_partition_entries := leVal raw 80 4,
            size_of_partition_entry := leVal raw 84 4,
            partition_entry_array_crc32 := leVal raw 88 4 }
      else throwE .unexpectedNonZeroValue := by
    unfold GptHeader.parse
    rw [if_neg (by omega), if_neg (by simp [hsig]), if_neg (by omega),
      if_neg (by simp [hrev]), if_neg (by omega), if_neg hszg,
      if_neg (by omega), hcrc]
    simp [hres]
  rw [hparse]
  by_cases hall : (raw.drop 92).all (fun b => b == 0)
  · rw [if_pos hall]
    refine ⟨⟨fun hcontr => ?_, fun hex => ?_⟩, fun _ => rfl⟩
    · exfalso
      simp only [okM, throwE] at hcontr
      injection hcontr with h1
      exact Except.noConfusion h1
    · exfalso
      obtain ⟨b, hb, hbne⟩ := hex
      rw [List.all_eq_true] at hall
      exact absurd (by simpa using hall b hb) hbne
  · rw [if_neg hall]
    refine ⟨⟨fun _ => ?_, fun _ => rfl⟩, fun hzero => ?_⟩
    · rw [List.all_eq_true] at hall
      push_neg at hall
      obtain ⟨b, hb, hbne⟩ := hall
      exact ⟨b, hb, by simpa using hbne⟩
    · exfalso
      apply hall
      rw [List.all_eq_true]
      intro b hb
      simpa using hzero b hb

/-- Witness for C1: a fully valid header block (header size 92, zero tail)
parses to its decoded header. -/
theorem gpt_header_parse_zero_check_from_92_witness :
    GptHeader.parse (mkHeaderBlock 1 3 0 0 7 2 0 128 0) = okM
      { revision := leVal (mkHeaderBlock 1 3 0 0 7 2 0 128 0) 8 4,
        header_size := leVal (mkHeaderBlock 1 3 0 0 7 2 0 128 0) 12 4,
        header_crc32 := leVal (mkHeaderBlock 1 3 0 0 7 2 0 128 0) 16 4,
        my_lba := leVal (mkHeaderBlock 1 3 0 0 7 2 0 128 0) 24 8,
        alternate_lba := leVal (mkHeaderBlock 1 3 0 0 7 2 0 128 0) 32 8,
        first_usable_lba := leVal (mkHeaderBlock 1 3 0 0 7 2 0 128 0) 40 8,
        last_usable_lba := leVal (mkHeaderBlock 1 3 0 0 7 2 0 128 0) 48 8,
        disk_guid := leVal (mkHeaderBlock 1 3 0 0 7 2 0 128 0) 56 16,
        partition_entry_lba := leVal (mkHeaderBlock 1 3 0 0 7 2 0 128 0) 72 8,
        number_of_partition_entries := leVal (mkHeaderBlock 1 3 0 0 7 2 0 128 0) 80 4,
        size_of_partition_entry := leVal (mkHeaderBlock 1 3 0 0 7 2 0 128 0) 84 4,
        partition_entry_array_crc32 := leVal (mkHeaderBlock 1 3 0 0 7 2 0 128 0) 88 4 } :=
  (gpt_header_parse_zero_check_from_92 (mkHeaderBlock 1 3 0 0 7 2 0 128 0)
    (by decide) (by decide) (by decide) (by decide) (by decide) (by decide)
    (by decide)).2 (by decide)

/-- Counterexample to C1 as stated: on `c1Block` (header size 96) every
check up to the reserved field passes and every byte from offset
`header_size = 96` to the end of the block is zero, yet `parse` fails with
`UnexpectedNonZeroValue` — the loop starts at offset 92, and byte 92 is 1. -/
theorem gpt_header_parse_zero_check_counterexample :
    c1Block.length = 512 ∧
    leVal c1Block 0 8 = REQUIRED_SIGNATURE ∧
    leVal c1Block 8 4 = THIS_REVISION ∧
    leVal c1Block 12 4 = 96 ∧
    GptHeader.crc32_from_logical_block c1Block (leVal c1Block 12 4) =
      some (leVal c1Block 16 4) ∧
    leVal c1Block 20 4 = 0 ∧
    ((c1Block.drop 96).all (fun b => b == 0)) = true ∧
    GptHeader.parse c1Block = throwE .unexpectedNonZeroValue := by
  decide

theorem drop_append_right' (L t : List Nat) (n : Nat) (h : L.length ≤ n) :
    (L ++ t).drop n = t.drop (n - L.length) := by
  rcases Nat.exists_eq_add_of_le h with ⟨k, hk⟩
  subst hk
  rw [List.drop_append]
  congr 1
  omega

theorem encode_normal (bc : List Nat) (u s : Nat)
    (r0 r1 r2 r3 : MbrPartitionRecord) :
    Mbr.encode ⟨bc, u, [r0, r1, r2, r3], s⟩ =
      bc ++ (leBytes 4 u ++ ([0, 0] ++ (encodeRecord r0 ++ (encodeRecord r1
        ++ (encodeRecord r2 ++ (encodeRecord r3 ++ leBytes 2 s)))))) := by
  simp [Mbr.encode, List.append_assoc]

theorem parseRecord_encodeRecord (r : MbrPartitionRecord) :
    parseRecord (encodeRecord r) =
      ⟨r.boot_indicator, r.starting_chs % 16777216, r.os_type,
        r.ending_chs % 16777216, r.starting_lba % 4294967296,
        r.size_in_lba % 4294967296⟩ := by
  simp only [encodeRecord, leBytes, parseRecord, List.cons_append,
    List.nil_append, List.getD_cons_zero, List.getD_cons_succ,
    List.take_succ_cons, List.take_zero, leVal, MbrPartitionRecord.mk.injEq]
  refine ⟨?_, ?_, ?_, ?_, ?_, ?_⟩ <;> first | trivial | omega

theorem encode_take440 (bc : List Nat) (u s : Nat)
    (r0 r1 r2 r3 : MbrPartitionRecord) (hbc : bc.length = 440) :
    (bc ++ (leBytes 4 u ++ ([0, 0] ++ (encodeRecord r0 ++ (encodeRecord r1
      ++ (encodeRecord r2 ++ (encodeRecord r3 ++ leBytes 2 s))))))).take 440 = bc :=
  List.take_left' hbc

theorem encode_unique (bc : List Nat) (u s : Nat)
    (r0 r1 r2 r3 : MbrPartitionRecord) (hbc : bc.length = 440) :
    leVal (bc ++ (leBytes 4 u ++ ([0, 0] ++ (encodeRecord r0 ++ (encodeRecord r1
      ++ (encodeRecord r2 ++ (encodeRecord r3 ++ leBytes 2 s))))))) 440 4 =
      u % 4294967296 := by
  rw [leVal_append_right _ _ _ _ (by omega)]
  simp only [hbc, Nat.reduceSub]
  rw [leVal_leBytes_left]
  norm_num

theorem encode_slice0 (bc : List Nat) (u s : Nat)
    (r0 r1 r2 r3 : MbrPartitionRecord) (hbc : bc.length = 440) :
    ((bc ++ (leBytes 4 u ++ ([0, 0] ++ (encodeRecord r0 ++ (encodeRecord r1
      ++ (encodeRecord r2 ++ (encodeRecord r3 ++ leBytes 2 s))))))).drop 446).take 16 =
      encodeRecord r0 := by
  rw [drop_append_right' _ _ _ (by omega)]
  simp only [hbc, Nat.reduceSub]
  have hsplit : leBytes 4 u ++ ([0, 0] ++ (encodeRecord r0 ++ (encodeRecord r1
      ++ (encodeRecord r2 ++ (encodeRecord r3 ++ leBytes 2 s))))) =
      (leBytes 4 u ++ [0, 0]) ++ (encodeRecord r0 ++ (encodeRecord r1
        ++ (encodeRecord r2 ++ (encodeRecord r3 ++ leBytes 2 s)))) := by
    simp [List.append_assoc]
  rw [hsplit, List.drop_left' (by simp [leBytes_length]),
    List.take_left' (encodeRecord_length r0)]

theorem encode_slice1 (bc : List Nat) (u s : Nat)
    (r0 r1 r2 r3 : MbrPartitionRecord) (hbc : bc.length = 440) :
    ((bc ++ (leBytes 4 u ++ ([0, 0] ++ (encodeRecord r0 ++ (encodeRecord r1
      ++ (encodeRecord r2 ++ (encodeRecord r3 ++ leBytes 2 s))))))).drop 462).take 16 =
      encodeRecord r1 := by
  rw [drop_append_right' _ _ _ (by omega)]
  simp only [hbc, Nat.reduceSub]
  have hsplit : leBytes 4 u ++ ([0, 0] ++ (encodeRecord r0 ++ (encodeRecord r1
      ++ (encodeRecord r2 ++ (encodeRecord r3 ++ leBytes 2 s))))) =
      ((leBytes 4 u ++ [0, 0]) ++ encodeRecord r0) ++ (encodeRecord r1
        ++ (encodeRecord r2 ++ (encodeRecord r3 ++ leBytes 2 s))) := by
    simp [List.append_assoc]
  rw [hsplit, List.drop_left' (by simp [leBytes_length, encodeRecord_length]),
    List.take_left' (encodeRecord_length r1)]

theorem encode_slice2 (bc : List Nat) (u s : Nat)
    (r0 r1 r2 r3 : MbrPartitionRecord) (hbc : bc.length = 440) :
    ((bc ++ (leBytes 4 u ++ ([0, 0] ++ (encodeRecord r0 ++ (encodeRecord r1
      ++ (encodeRecord r2 ++ (encodeRecord r3 ++ leBytes 2 s))))))).drop 478).take 16 =
      encodeRecord r2 := by
  rw [drop_append_right' _ _ _ (by omega)]
  simp only [hbc, Nat.reduceSub]
  have hsplit : leBytes 4 u ++ ([0, 0] ++ (encodeRecord r0 ++ (encodeRecord r1
      ++ (encodeRecord r2 ++ (encodeRecord r3 ++ leBytes 2 s))))) =
      (((leBytes 4 u ++ [0, 0]) ++ encodeRecord r0) ++ encodeRecord r1)
        ++ (encodeRecord r2 ++ (encodeRecord r3 ++ leBytes 2 s)) := by
    simp [List.append_assoc]
  rw [hsplit, List.drop_left' (by simp [leBytes_length, encodeRecord_length]),
    List.take_left' (encodeRecord_length r2)]

theorem encode_slice3 (bc : List Nat) (u s : Nat)
    (r0 r1 r2 r3 : MbrPartitionRecord) (hbc : bc.length = 440) :
    ((bc ++ (leBytes 4 u ++ ([0, 0] ++ (encodeRecord r0 ++ (encodeRecord r1
      ++ (encodeRecord r2 ++ (encodeRecord r3 ++ leBytes 2 s))))))).drop 494).take 16 =
      encodeRecord r3 := by
  rw [drop_append_right' _ _ _ (by omega)]
  simp only [hbc, Nat.reduceSub]
  have hsplit : leBytes 4 u ++ ([0, 0] ++ (encodeRecord r0 ++ (encodeRecord r1
      ++ (encodeRecord r2 ++ (encodeRecord r3 ++ leBytes 2 s))))) =
      ((((leBytes 4 u ++ [0, 0]) ++ encodeRecord r0) ++ encodeRecord r1)
        ++ encodeRecord r2) ++ (encodeRecord r3 ++ leBytes 2 s) := by
    simp [List.append_assoc]
  rw [hsplit, List.drop_left' (by simp [leBytes_length, encodeRecord_length]),
    List.take_left' (encodeRecord_length r3)]

theorem encode_sig0 (bc : List Nat) (u s : Nat)
    (r0 r1 r2 r3 : MbrPartitionRecord) (hbc : bc.length = 440) :
    (bc ++ (leBytes 4 u ++ ([0, 0] ++ (encodeRecord r0 ++ (encodeRecord r1
      ++ (encodeRecord r2 ++ (encodeRecord r3 ++ leBytes 2 s))))))).getD 510 0 =
      s % 256 := by
  rw [List.getD_append_right _ _ _ _ (by omega)]
  simp only [hbc, Nat.reduceSub]
  have hsplit : leBytes 4 u ++ ([0, 0] ++ (encodeRecord r0 ++ (encodeRecord r1
      ++ (encodeRecord r2 ++ (encodeRecord r3 ++ leBytes 2 s))))) =
      (((((leBytes 4 u ++ [0, 0]) ++ encodeRecord r0) ++ encodeRecord r1)
        ++ encodeRecord r2) ++ encodeRecord r3) ++ leBytes 2 s := by
    simp [List.append_assoc]
  rw [hsplit, List.getD_append_right _ _ _ _
    (by simp [leBytes_length, encodeRecord_length])]
  simp [leBytes_length, encodeRecord_length, leBytes]

theorem encode_sig1 (bc : List Nat) (u s : Nat)
    (r0 r1 r2 r3 : MbrPartitionRecord) (hbc : bc.length = 440) :
    (bc ++ (leBytes 4 u ++ ([0, 0] ++ (encodeRecord r0 ++ (encodeRecord r1
      ++ (encodeRecord r2 ++ (encodeRecord r3 ++ leBytes 2 s))))))).getD 511 0 =
      s / 256 % 256 := by
  rw [List.getD_append_right _ _ _ _ (by omega)]
  simp only [hbc, Nat.reduceSub]
  have hsplit : leBytes 4 u ++ ([0, 0] ++ (encodeRecord r0 ++ (encodeRecord r1
      ++ (encodeRecord r2 ++ (encodeRecord r3 ++ leBytes 2 s))))) =
      (((((leBytes 4 u ++ [0, 0]) ++ encodeRecord r0) ++ encodeRecord r1)
        ++ encodeRecord r2) ++ encodeRecord r3) ++ leBytes 2 s := by
    simp [List.append_assoc]
  rw [hsplit, List.getD_append_right _ _ _ _
    (by simp [leBytes_length, encodeRecord_length])]
  simp [leBytes_length, encodeRecord_length, leBytes]

theorem parse_encode (bc : List Nat) (u s : Nat)
    (r0 r1 r2 r3 : MbrPartitionRecord) (hbc : bc.length = 440)
    (hs : s = 43605) :
    Mbr.parse (Mbr.encode ⟨bc, u, [r0, r1, r2, r3], s⟩) =
      okM ⟨bc, u % 4294967296,
        [⟨r0.boot_indicator, r0.starting_chs % 16777216, r0.os_type,
          r0.ending_chs % 16777216, r0.starting_lba % 4294967296,
          r0.size_in_lba % 4294967296⟩,
         ⟨r1.boot_indicator, r1.starting_chs % 16777216, r1.os_type,
          r1.ending_chs % 16777216, r1.starting_lba % 4294967296,
          r1.size_in_lba % 4294967296⟩,
         ⟨r2.boot_indicator, r2.starting_chs % 16777216, r2.os_type,
          r2.ending_chs % 16777216, r2.starting_lba % 4294967296,
          r2.size_in_lba % 4294967296⟩,
         ⟨r3.boot_indicator, r3.starting_chs % 16777216, r3.os_type,
          r3.ending_chs % 16777216, r3.starting_lba % 4294967296,
          r3.size_in_lba % 4294967296⟩], 43605⟩ := by
  rw [encode_normal]
  have hlen : (bc ++ (leBytes 4 u ++ ([0, 0] ++ (encodeRecord r0 ++
      (encodeRecord r1 ++ (encodeRecord r2 ++ (encodeRecord r3 ++
        leBytes 2 s))))))).length = 512 := by
    simp [leBytes_length, encodeRecord_length, hbc]
  unfold Mbr.parse
  rw [if_neg (by omega), if_neg (by omega), if_neg (by omega), if_neg (by omega)]
  simp only [PARTITION_RECORD_COUNT, show List.range 4 = [0, 1, 2, 3] from rfl,
    List.map_cons, List.map_nil, Nat.reduceMul, Nat.reduceAdd]
  simp only [encode_take440 bc u s r0 r1 r2 r3 hbc,
    encode_unique bc u s r0 r1 r2 r3 hbc,
    encode_slice0 bc u s r0 r1 r2 r3 hbc, encode_slice1 bc u s r0 r1 r2 r3 hbc,
    encode_slice2 bc u s r0 r1 r2 r3 hbc, encode_slice3 bc u s r0 r1 r2 r3 hbc,
    encode_sig0 bc u s r0 r1 r2 r3 hbc, encode_sig1 bc u s r0 r1 r2 r3 hbc,
    parseRecord_encodeRecord]
  rw [if_pos (by simp only [MBR_REQUIRED_SIGNATURE]; omega)]
  rw [show s % 256 + 256 * (s / 256 % 256) = 43605 by omega]

theorem encodeRecord_trunc (r : MbrPartitionRecord) :
    encodeRecord ⟨r.boot_indicator, r.starting_chs % 16777216, r.os_type,
      r.ending_chs % 16777216, r.starting_lba % 4294967296,
      r.size_in_lba % 4294967296⟩ = encodeRecord r := by
  simp [encodeRecord, leBytes, List.cons.injEq]
  omega

/-- C6: for every valid `Mbr` value whose `signature` field is `0xAA55`,
`Mbr::parse` accepts its encoding and re-encoding the parsed value
reproduces the encoded bytes exactly:
`encode(parse(encode(m))) == encode(m)`. -/
theorem mbr_encode_parse_roundtrip (m : Mbr) (hwf : m.wf)
    (hsig : m.signature = MBR_REQUIRED_SIGNATURE) :
    ∃ m', Mbr.parse m.encode = okM m' ∧ m'.encode = m.encode := by
  obtain ⟨bc, u, prs, s⟩ := m
  obtain ⟨hbc, hbcb, hu, hprlen, hrb, hsb⟩ := hwf
  simp only [BOOT_CODE_SIZE] at hbc
  simp only [PARTITION_RECORD_COUNT] at hprlen
  simp only [MBR_REQUIRED_SIGNATURE] at hsig
  rcases prs with _ | ⟨r0, _ | ⟨r1, _ | ⟨r2, _ | ⟨r3, _ | ⟨r4, rest⟩⟩⟩⟩⟩ <;>
    simp only [List.length_cons, List.length_nil] at hprlen
  case nil => omega
  case cons.nil => omega
  case cons.cons.nil => omega
  case cons.cons.cons.nil => omega
  case cons.cons.cons.cons.cons => omega
  case cons.cons.cons.cons.nil =>
  have hs43605 : s = 43605 := hsig
  refine ⟨_, parse_encode bc u s r0 r1 r2 r3 hbc hs43605, ?_⟩
  rw [encode_normal, encode_normal]
  rw [encodeRecord_trunc r0, encodeRecord_trunc r1, encodeRecord_trunc r2,
    encodeRecord_trunc r3]
  rw [show leBytes 4 (u % 4294967296) = leBytes 4 u from by
    rw [show (4294967296 : Nat) = 256 ^ 4 by norm_num, leBytes_mod]]
  rw [hs43605]

/-- Witness for C6: the round-trip at the concrete MBR `diskA_mbr`. -/
theorem mbr_encode_parse_roundtrip_witness :
    ∃ m', Mbr.parse diskA_mbr.encode = okM m' ∧ m'.encode = diskA_mbr.encode :=
  mbr_encode_parse_roundtrip diskA_mbr (by unfold Mbr.wf; decide) (by decide)

end MiniGpt